import Mathlib

/-!
Shallow embedding of `packages/core/src/llm/chaos-runner.ts` (web-autopilot).

JavaScript numbers are modelled as exact integers (`Nat` / `Int`): every value
the chaos runner computes stays far below `2^53`, where JS float arithmetic on
integers is exact.  The 32-bit wrap-around performed by `Math.imul`, `>>> 0`,
`|`, `^` and `>>>` is modelled by explicit `% 2^32` reductions on `Nat`
(signed and unsigned int32 values are identified with their bit patterns in
`[0, 2^32)`).  Asynchronous Playwright calls are modelled by a `TargetEnv`
record supplying each call's outcome, so the runner becomes a deterministic
function of its configuration, its RNG state and that record.
-/

namespace SeededRandom

/-- The constant `2^32`, the modulus of all 32-bit operations in `SeededRandom`, and the
denominator of the value returned by `next`. -/
def UINT32 : Nat := 4294967296

/-- Embedding of `SeededRandom.next`.  JS source:
`let t = (this.state += 0x6d2b79f5);`
`t = Math.imul(t ^ (t >>> 15), t | 1);`
`t ^= t + Math.imul(t ^ (t >>> 7), t | 61);`
`return ((t ^ (t >>> 14)) >>> 0) / 4294967296;`
The JS `+=` leaves `state` an unreduced exact integer; every bitwise step then
operates on its value mod `2^32`.  Returns the numerator `r < 2^32` of the
drawn value `r / 2^32` together with the new (unreduced) state. -/
def next (state : Nat) : Nat × Nat :=
  let state' := state + 0x6d2b79f5
  let t0 := state' % UINT32
  let t1 := (t0 ^^^ (t0 >>> 15)) * (t0 ||| 1) % UINT32
  let t2 := t1 ^^^ ((t1 + (t1 ^^^ (t1 >>> 7)) * (t1 ||| 61) % UINT32) % UINT32)
  (t2 ^^^ (t2 >>> 14), state')

/-- Modelled from the spec: the Mulberry32 transform (§4.1) with the internal
state stored as an unsigned 32-bit integer, i.e. reduced mod `2^32` on every
draw; the result is `(t XOR (t >>> 14)) mod 2^32` (numerator of the value
divided by `2^32`). -/
def specNext (state : Nat) : Nat × Nat :=
  let s := (state + 0x6d2b79f5) % UINT32
  let t1 := (s ^^^ (s >>> 15)) * (s ||| 1) % UINT32
  let t2 := t1 ^^^ ((t1 + (t1 ^^^ (t1 >>> 7)) * (t1 ||| 61) % UINT32) % UINT32)
  ((t2 ^^^ (t2 >>> 14)) % UINT32, s)

theorem uint32_pos : 0 < UINT32 := by decide

theorem uint32_eq_pow : UINT32 = 2 ^ 32 := by decide

theorem shiftRight_le (n k : Nat) : n >>> k ≤ n := by
  rw [Nat.shiftRight_eq_div_pow]
  exact Nat.div_le_self _ _

/-- Proof-support abbreviation: the XOR/shift/multiply pipeline both `next`
and `specNext` apply to the (already reduced) post-increment state. -/
def mulberryMix (t0 : Nat) : Nat :=
  let t1 := (t0 ^^^ (t0 >>> 15)) * (t0 ||| 1) % UINT32
  let t2 := t1 ^^^ ((t1 + (t1 ^^^ (t1 >>> 7)) * (t1 ||| 61) % UINT32) % UINT32)
  t2 ^^^ (t2 >>> 14)

theorem next_fst_eq (s : Nat) :
    (next s).1 = mulberryMix ((s + 0x6d2b79f5) % UINT32) := rfl

theorem next_snd_eq (s : Nat) : (next s).2 = s + 0x6d2b79f5 := rfl

theorem specNext_fst_eq (s : Nat) :
    (specNext s).1 = mulberryMix ((s + 0x6d2b79f5) % UINT32) % UINT32 := rfl

theorem specNext_snd_eq (s : Nat) :
    (specNext s).2 = (s + 0x6d2b79f5) % UINT32 := rfl

/-- The mixing pipeline only produces values below `2^32`. -/
theorem mulberryMix_lt (t0 : Nat) : mulberryMix t0 < UINT32 := by
  simp only [mulberryMix]
  have h1 : (t0 ^^^ (t0 >>> 15)) * (t0 ||| 1) % UINT32 < UINT32 :=
    Nat.mod_lt _ uint32_pos
  generalize hA : (t0 ^^^ (t0 >>> 15)) * (t0 ||| 1) % UINT32 = t1 at h1 ⊢
  have h2 : (t1 + (t1 ^^^ (t1 >>> 7)) * (t1 ||| 61) % UINT32) % UINT32 < UINT32 :=
    Nat.mod_lt _ uint32_pos
  generalize hB : (t1 + (t1 ^^^ (t1 >>> 7)) * (t1 ||| 61) % UINT32) % UINT32 = u at h2 ⊢
  rw [uint32_eq_pow] at h1 h2 ⊢
  have h3 : t1 ^^^ u < 2 ^ 32 := Nat.xor_lt_two_pow h1 h2
  exact Nat.xor_lt_two_pow h3 (Nat.lt_of_le_of_lt (shiftRight_le _ _) h3)

theorem next_fst_lt (state : Nat) : (next state).1 < UINT32 := by
  rw [next_fst_eq]
  exact mulberryMix_lt _

/-- Agreement: `next` on the unreduced JS state agrees with the spec's transform on the
reduced state: same drawn numerator, and the two states stay congruent
mod `2^32`. -/
theorem next_eq_specNext (s : Nat) :
    (next s).1 = (specNext (s % UINT32)).1 ∧
      (next s).2 % UINT32 = (specNext (s % UINT32)).2 := by
  have h0 : (s % UINT32 + 0x6d2b79f5) % UINT32 = (s + 0x6d2b79f5) % UINT32 := by
    simp only [UINT32]
    omega
  constructor
  · rw [next_fst_eq, specNext_fst_eq, h0, Nat.mod_eq_of_lt (mulberryMix_lt _)]
  · rw [next_snd_eq, specNext_snd_eq, h0]

/-- The `SeededRandom` state after `k` draws from the given seed
(`this.state`, never reduced by JS). -/
def states (seed : Nat) : Nat → Nat
  | 0 => seed
  | k + 1 => (next (states seed k)).2

/-- The numerator of the `k`-th value drawn from the given seed. -/
def draw (seed k : Nat) : Nat := (next (states seed k)).1

/-- Spec-side state sequence (state reduced mod `2^32` on every draw). -/
def specStates (seed : Nat) : Nat → Nat
  | 0 => seed
  | k + 1 => (specNext (specStates seed k)).2

/-- Spec-side draw sequence. -/
def specDraw (seed k : Nat) : Nat := (specNext (specStates seed k)).1

theorem states_congr (seed k : Nat) :
    states seed k % UINT32 = specStates (seed % UINT32) k := by
  induction k with
  | zero => rfl
  | succ k ih =>
    show (next (states seed k)).2 % UINT32 = (specNext (specStates (seed % UINT32) k)).2
    rw [← ih]
    exact (next_eq_specNext (states seed k)).2

/-- C1: `SeededRandom.next` implements exactly the specified Mulberry32
transform: for every seed, the `k`-th drawn numerator equals the one produced
by the spec's transform (state reduced mod `2^32` each draw), and every drawn
numerator is `< 2^32`, i.e. the returned value `draw / 2^32` lies in `[0, 1)`.
Since `draw` is a pure function of the seed, any two `SeededRandom` instances
constructed with the same seed produce identical `next()` sequences for all
draws (in particular the first 10,000), and `nextInt()` / `pick()` are
deterministic functions of this stream, so their sequences coincide too. -/
theorem next_matches_mulberry32 (seed k : Nat) :
    draw seed k = specDraw (seed % UINT32) k ∧ draw seed k < UINT32 := by
  refine ⟨?_, next_fst_lt _⟩
  show (next (states seed k)).1 = (specNext (specStates (seed % UINT32) k)).1
  rw [← states_congr seed k]
  exact (next_eq_specNext (states seed k)).1

/-- Embedding of `SeededRandom.nextInt(min, max)`: `Math.floor(this.next() * (max - min)) + min`.
`next()`'s value is the exact rational `r / 2^32`, so `Math.floor` of
`(r / 2^32) * (max - min)` is the floor division `(r * (max - min)).fdiv 2^32`.
The JS source performs no validation and never throws. -/
def nextInt (state : Nat) (mn mx : Int) : Int × Nat :=
  let p := next state
  (((p.1 : Int) * (mx - mn)).fdiv (UINT32 : Int) + mn, p.2)

theorem nextInt_fst_eq (state : Nat) (mn mx : Int) :
    (nextInt state mn mx).1 =
      (((next state).1 : Int) * (mx - mn)).fdiv (UINT32 : Int) + mn := rfl

/-- The drawn integer lies in `[min, max)` whenever `min < max`. -/
theorem nextInt_fst_bounds (state : Nat) (mn mx : Int) (h : mn < mx) :
    mn ≤ (nextInt state mn mx).1 ∧ (nextInt state mn mx).1 < mx := by
  rw [nextInt_fst_eq]
  have hUpos : (0 : Int) < (UINT32 : Int) := by decide
  have hr : ((next state).1 : Int) < (UINT32 : Int) := by
    exact_mod_cast next_fst_lt state
  have hrpos : (0 : Int) ≤ ((next state).1 : Int) := Int.natCast_nonneg _
  have hd : (0 : Int) < mx - mn := by omega
  rw [Int.fdiv_eq_ediv _ (le_of_lt hUpos)]
  have hq0 : (0 : Int) ≤ ((next state).1 : Int) * (mx - mn) / (UINT32 : Int) :=
    Int.ediv_nonneg (mul_nonneg hrpos (le_of_lt hd)) (le_of_lt hUpos)
  have hqd : ((next state).1 : Int) * (mx - mn) / (UINT32 : Int) < mx - mn := by
    rw [Int.ediv_lt_iff_lt_mul hUpos]
    calc ((next state).1 : Int) * (mx - mn) < (UINT32 : Int) * (mx - mn) :=
          mul_lt_mul_of_pos_right hr hd
      _ = (mx - mn) * (UINT32 : Int) := mul_comm _ _
  omega

/-- C7 (amended): `nextInt(min, max)` returns
`floor(next() * (max - min)) + min`, which lies in `[min, max)` for every
`min < max`; but the code contains no range validation, so for `max <= min`
it does not fail with `InvalidRangeError` (see the counterexample below). -/
theorem nextInt_in_range (state : Nat) (mn mx : Int) (h : mn < mx) :
    mn ≤ (nextInt state mn mx).1 ∧ (nextInt state mn mx).1 < mx :=
  nextInt_fst_bounds state mn mx h

/-- Witness for `nextInt_in_range` at `state = 0`, `min = 0`, `max = 10`. -/
theorem nextInt_in_range_witness :
    (0 : Int) ≤ (nextInt 0 0 10).1 ∧ (nextInt 0 0 10).1 < 10 :=
  nextInt_in_range 0 0 10 (by decide)

/-- Modelled from the spec: `nextInt(min, max)` "Fails with
`InvalidRangeError` if `max <= min`"; otherwise behaves as the code does. -/
def nextIntSpec (state : Nat) (mn mx : Int) : Except String (Int × Nat) :=
  if mx ≤ mn then .error "InvalidRangeError" else .ok (nextInt state mn mx)

/-- C7 counterexample: at `min = max = 5` the spec demands `InvalidRangeError`,
but the code's `nextInt` (which contains no validation and cannot throw)
returns the plain value `5` and advances the state. -/
theorem nextInt_returns_value_on_empty_range :
    nextIntSpec 0 5 5 = .error "InvalidRangeError" ∧
      nextInt 0 5 5 = (5, 0x6d2b79f5) := by
  constructor
  · rfl
  · decide

/-- Embedding of `SeededRandom.pick`: returns `undefined` (`none`) for an empty array
without drawing; otherwise draws `nextInt(0, array.length)` and indexes. -/
def pick {α : Type} (state : Nat) (array : List α) : Option α × Nat :=
  if array.isEmpty then (none, state)
  else
    let p := nextInt state 0 ((array.length : Nat) : Int)
    (array[p.1.toNat]?, p.2)

theorem nextInt_zero_toNat_lt (state n : Nat) (h : 0 < n) :
    (nextInt state 0 ((n : Nat) : Int)).1.toNat < n := by
  have hb := nextInt_fst_bounds state 0 ((n : Nat) : Int) (by exact_mod_cast h)
  rw [Int.toNat_lt hb.1]
  exact hb.2

theorem pick_mem {α : Type} {state : Nat} {l : List α} {x : α}
    (h : (pick state l).1 = some x) : x ∈ l := by
  by_cases he : l.isEmpty
  · simp [pick, he] at h
  · simp only [pick, if_neg he] at h
    exact List.getElem?_mem h

theorem pick_eq_some_of_ne_nil {α : Type} (state : Nat) (l : List α)
    (h : l ≠ []) : ∃ x, (pick state l).1 = some x := by
  have he : l.isEmpty = false := by simp [List.isEmpty_iff, h]
  have hidx : (nextInt state 0 ((l.length : Nat) : Int)).1.toNat < l.length :=
    nextInt_zero_toNat_lt state l.length (List.length_pos.mpr h)
  refine ⟨l.get ⟨_, hidx⟩, ?_⟩
  simp only [pick, he, Bool.false_eq_true, if_false]
  exact List.getElem?_eq_getElem hidx

/-- One JS swap `[array[i], array[j]] = [array[j], array[i]]`.  Out-of-range
indices cannot occur in `shuffle`; the fallback branch returns the list
unchanged. -/
def listSwap {α : Type} (l : List α) (i j : Nat) : List α :=
  match l[i]?, l[j]? with
  | some a, some b => (l.set i b).set j a
  | _, _ => l

/-- Embedding of the `SeededRandom.shuffle` loop:
`for (let i = array.length - 1; i > 0; i--) { const j = this.nextInt(0, i + 1); swap i j }`.
The first argument of `shuffleGo` is the current loop index; in the step case
the index is `i + 1`, so the drawn bound is `(i + 1) + 1 = i + 2`. -/
def shuffleGo {α : Type} : Nat → Nat → List α → List α × Nat
  | 0, state, l => (l, state)
  | i + 1, state, l =>
    let p := nextInt state 0 ((i + 2 : Nat) : Int)
    shuffleGo i p.2 (listSwap l (i + 1) p.1.toNat)

/-- Embedding of `SeededRandom.shuffle`. -/
def shuffle {α : Type} (state : Nat) (l : List α) : List α × Nat :=
  shuffleGo (l.length - 1) state l

theorem perm_cons_set {α : Type} :
    ∀ (l : List α) (m : Nat) (a : α) (h : m < l.length),
      List.Perm (l.get ⟨m, h⟩ :: l.set m a) (a :: l)
  | [], m, _, h => (Nat.not_lt_zero m h).elim
  | x :: t, 0, a, _ => List.Perm.swap a x t
  | x :: t, m + 1, a, h =>
      ((List.Perm.swap x (t.get ⟨m, Nat.lt_of_succ_lt_succ h⟩) (t.set m a)).trans
        (List.Perm.cons x (perm_cons_set t m a (Nat.lt_of_succ_lt_succ h)))).trans
        (List.Perm.swap a x t)

theorem set_set_swap_perm {α : Type} :
    ∀ (l : List α) (i j : Nat) (hi : i < l.length) (hj : j < l.length),
      List.Perm ((l.set i (l.get ⟨j, hj⟩)).set j (l.get ⟨i, hi⟩)) l
  | [], i, _, hi, _ => (Nat.not_lt_zero i hi).elim
  | _ :: _, 0, 0, _, _ => List.Perm.refl _
  | x :: t, 0, m + 1, _, hj => perm_cons_set t m x (Nat.lt_of_succ_lt_succ hj)
  | x :: t, k + 1, 0, hi, _ => perm_cons_set t k x (Nat.lt_of_succ_lt_succ hi)
  | _ :: t, k + 1, m + 1, hi, hj =>
      List.Perm.cons _ (set_set_swap_perm t k m (Nat.lt_of_succ_lt_succ hi)
        (Nat.lt_of_succ_lt_succ hj))

theorem listSwap_perm {α : Type} (l : List α) (i j : Nat)
    (hi : i < l.length) (hj : j < l.length) : List.Perm (listSwap l i j) l := by
  simp only [listSwap, List.getElem?_eq_getElem hi, List.getElem?_eq_getElem hj]
  exact set_set_swap_perm l i j hi hj

theorem shuffleGo_perm {α : Type} :
    ∀ (i state : Nat) (l : List α), i < l.length →
      List.Perm (shuffleGo i state l).1 l
  | 0, _, l, _ => List.Perm.refl l
  | i + 1, state, l, h => by
      have hj : (nextInt state 0 ((i + 2 : Nat) : Int)).1.toNat < i + 2 :=
        nextInt_zero_toNat_lt state (i + 2) (Nat.succ_pos _)
      have hswap := listSwap_perm l (i + 1)
        ((nextInt state 0 ((i + 2 : Nat) : Int)).1.toNat) h
        (Nat.lt_of_lt_of_le hj h)
      have ih := shuffleGo_perm i ((nextInt state 0 ((i + 2 : Nat) : Int)).2)
        (listSwap l (i + 1) ((nextInt state 0 ((i + 2 : Nat) : Int)).1.toNat))
        (by rw [hswap.length_eq]; exact Nat.lt_of_succ_lt h)
      exact ih.trans hswap

/-- C6: `shuffle` is an in-place Fisher–Yates (iterating from the last index
down to 1, swapping index `i` with `nextInt(0, i + 1)`) and returns a
permutation of its input: the length and the multiset of elements are
unchanged. -/
theorem shuffle_is_permutation {α : Type} (state : Nat) (l : List α) :
    (shuffle state l).1.length = l.length ∧
      List.Perm (shuffle state l).1 l ∧
      ((shuffle state l).1 : Multiset α) = (l : Multiset α) := by
  have hp : List.Perm (shuffle state l).1 l := by
    cases l with
    | nil => exact List.Perm.refl _
    | cons x t =>
        exact shuffleGo_perm ((x :: t).length - 1) state (x :: t)
          (by simp only [List.length_cons]; omega)
  exact ⟨hp.length_eq, hp, Multiset.coe_eq_coe.mpr hp⟩

end SeededRandom

namespace ChaosRunner

open SeededRandom

/-- The closed action taxonomy (`ChaosActionType`). -/
inductive ChaosActionType : Type
  | click
  | typePrompt
  | navigateBack
  | navigateForward
  | refresh
  | scroll
  | keyboardShortcut
  | resizeViewport
  | toggleSidebar
  | switchModel
deriving DecidableEq

/-- The string value of each member of the TS string-literal union, used in
error messages and reproduction steps. -/
def ChaosActionType.str : ChaosActionType → String
  | .click => "click"
  | .typePrompt => "type-prompt"
  | .navigateBack => "navigate-back"
  | .navigateForward => "navigate-forward"
  | .refresh => "refresh"
  | .scroll => "scroll"
  | .keyboardShortcut => "keyboard-shortcut"
  | .resizeViewport => "resize-viewport"
  | .toggleSidebar => "toggle-sidebar"
  | .switchModel => "switch-model"

/-- The `ChaosAction` record; `none` models an absent (`undefined`) field. -/
structure ChaosAction where
  type : ChaosActionType
  target : Option String := none
  value : Option String := none
  timestamp : Nat
  success : Bool
  error : Option String := none
deriving DecidableEq

/-- The `InvariantViolation` record. -/
structure InvariantViolation where
  invariant : String
  description : String
  afterAction : ChaosAction
  screenshot : Option String := none
deriving DecidableEq

/-- The `ChaosConfig` after the constructor has filled in defaults (the `onAction`
progress callback has no effect on any recorded state and is omitted). -/
structure ChaosConfig where
  seed : Nat
  maxSteps : Nat
  maxTimeMs : Nat
  allowedActions : List ChaosActionType
  clickableSelectors : List String
  forbiddenSelectors : List String
  promptCorpus : List String
  screenshotEachStep : Bool
deriving DecidableEq

/-- The caller-supplied `Partial<ChaosConfig>`: `none` models an absent field. -/
structure PartialChaosConfig where
  seed : Option Nat := none
  maxSteps : Option Nat := none
  maxTimeMs : Option Nat := none
  allowedActions : Option (List ChaosActionType) := none
  clickableSelectors : Option (List String) := none
  forbiddenSelectors : Option (List String) := none
  promptCorpus : Option (List String) := none
  screenshotEachStep : Option Bool := none

/-- The `ChaosRunner` constructor body: every field is filled by `??`
(`Option.getD`).  `nowSeed` stands for `Date.now()`.  The TS constructor
contains no validation and no `throw` statement. -/
def mkChaosConfig (nowSeed : Nat) (config : PartialChaosConfig) : ChaosConfig :=
  { seed := config.seed.getD nowSeed
    maxSteps := config.maxSteps.getD 100
    maxTimeMs := config.maxTimeMs.getD 60000
    allowedActions := config.allowedActions.getD
      [.click, .typePrompt, .scroll, .keyboardShortcut]
    clickableSelectors := config.clickableSelectors.getD
      ["button:not([disabled])",
       "[role=\"button\"]:not([disabled])",
       "a[href]",
       "[role=\"tab\"]",
       "[role=\"menuitem\"]",
       "input[type=\"checkbox\"]",
       "input[type=\"radio\"]",
       "[data-testid]"]
    forbiddenSelectors := config.forbiddenSelectors.getD
      ["[data-testid*=\"delete\"]",
       "[data-testid*=\"remove\"]",
       "button:has-text(\"Delete\")",
       "button:has-text(\"Remove\")",
       "button:has-text(\"Sign out\")",
       "button:has-text(\"Log out\")",
       "[aria-label*=\"delete\" i]",
       "[aria-label*=\"remove\" i]"]
    promptCorpus := config.promptCorpus.getD
      ["Hello",
       "What is 2 + 2?",
       "Write a haiku about coding",
       "Explain recursion briefly",
       "List 3 colors"]
    screenshotEachStep := config.screenshotEachStep.getD false }

/-- The `ChaosRunner` constructor, typed against the spec's claim that a
malformed configuration "raises a descriptive error": the body never produces
`.error`, because the TS constructor has no validation path. -/
def chaosConstructor (nowSeed : Nat) (config : PartialChaosConfig) :
    Except String ChaosConfig :=
  .ok (mkChaosConfig nowSeed config)

/-- The Target System (§6): one record supplying the outcome of every
asynchronous Playwright call the runner can make during a session.  Element
handles are modelled as `Nat`.  `.error e` models a rejected promise with
message `e`.  `elapsed k` is `Date.now() - startTime` at the loop guard when
`stepNumber = k`; `timeAt k` is `Date.now()` at the start of step `k`;
`consoleCount k` is `this.consoleErrors.length` at step `k`'s invariant check
(the console listener appends asynchronously); `finalConsoleErrors` /
`finalUncaught` are the captured logs when `run()` returns. -/
structure TargetEnv where
  candidates : List Nat := []
  matchesSel : Nat → String → Option Bool := fun _ _ => some false
  describe : Nat → Option String := fun _ => none
  clickOutcome : Nat → Except String Unit := fun _ => .ok ()
  inputFound : Bool := true
  fillOutcome : Except String Unit := .ok ()
  pressOutcome : Except String Unit := .ok ()
  goBackOutcome : Except String Unit := .ok ()
  goForwardOutcome : Except String Unit := .ok ()
  reloadOutcome : Except String Unit := .ok ()
  scrollOutcome : Except String Unit := .ok ()
  keyboardOutcome : Except String Unit := .ok ()
  viewportOutcome : Except String Unit := .ok ()
  elapsed : Nat → Nat := fun _ => 0
  timeAt : Nat → Nat := fun _ => 0
  consoleCount : Nat → Nat := fun _ => 0
  isBlank : Nat → Bool := fun _ => false
  hasErrorDialog : Nat → Bool := fun _ => false
  pageUrl : String := ""
  finalConsoleErrors : List String := []
  finalUncaught : List String := []
  issueNow : Nat → Nat := fun _ => 0
  issueRand : Nat → String := fun _ => ""
  finalElapsed : Nat := 0

/-- Embedding of `ChaosRunner.isForbiddenElement`: returns `true` iff some forbidden
selector's `el.matches(sel)` check succeeds with `true`; a failed check
(`none`, the TS `catch {}`) is skipped, i.e. treated as not matching. -/
def isForbiddenElement (matchesSel : Nat → String → Option Bool)
    (forbiddenSelectors : List String) (el : Nat) : Bool :=
  forbiddenSelectors.any fun sel => (matchesSel el sel).getD false

/-- The `safeElements` list built in `executeClick`: candidates surviving the
forbidden-element filter. -/
def safeClickElements (env : TargetEnv) (forbiddenSelectors : List String) :
    List Nat :=
  env.candidates.filter fun el =>
    ! isForbiddenElement env.matchesSel forbiddenSelectors el

/-- Embedding of `ChaosRunner.getElementDescription` (its `catch` returns
"unknown element"). -/
def getElementDescription (env : TargetEnv) (el : Nat) : String :=
  (env.describe el).getD "unknown element"

/-- Embedding of `ChaosRunner.executeClick`. -/
def executeClick (env : TargetEnv) (cfg : ChaosConfig) (timestamp state : Nat) :
    ChaosAction × Nat :=
  let safeElements := safeClickElements env cfg.forbiddenSelectors
  if safeElements.isEmpty then
    ({ type := .click, timestamp := timestamp, success := false,
       error := some "No clickable elements found" }, state)
  else
    match SeededRandom.pick state safeElements with
    | (some el, state') =>
      let targetSelector := getElementDescription env el
      match env.clickOutcome el with
      | .ok _ =>
        ({ type := .click, target := some targetSelector,
           timestamp := timestamp, success := true }, state')
      | .error e =>
        ({ type := .click, target := some targetSelector,
           timestamp := timestamp, success := false, error := some e }, state')
    | (none, state') =>
      ({ type := .click, timestamp := timestamp, success := false,
         error := some "No clickable elements found" }, state')

/-- Embedding of `ChaosRunner.executeTypePrompt` (the input-selector walk is modelled by
`env.inputFound`; `fill` then `press` run inside one local `try`). -/
def executeTypePrompt (env : TargetEnv) (cfg : ChaosConfig)
    (timestamp state : Nat) : ChaosAction × Nat :=
  if ! env.inputFound then
    ({ type := .typePrompt, timestamp := timestamp, success := false,
       error := some "No chat input found" }, state)
  else
    let p := SeededRandom.pick state cfg.promptCorpus
    let prompt := p.1.getD "Hello"
    match env.fillOutcome with
    | .error e =>
      ({ type := .typePrompt, value := some prompt, timestamp := timestamp,
         success := false, error := some e }, p.2)
    | .ok _ =>
      match env.pressOutcome with
      | .error e =>
        ({ type := .typePrompt, value := some prompt, timestamp := timestamp,
           success := false, error := some e }, p.2)
      | .ok _ =>
        ({ type := .typePrompt, value := some prompt, timestamp := timestamp,
           success := true }, p.2)

/-- Embedding of `ChaosRunner.executeNavigateBack`: `goBack(...).catch(() => {})` swallows
any rejection, so both outcomes produce the same `success: true` record. -/
def executeNavigateBack (env : TargetEnv) (timestamp : Nat) : ChaosAction :=
  match env.goBackOutcome with
  | .ok _ => { type := .navigateBack, timestamp := timestamp, success := true }
  | .error _ => { type := .navigateBack, timestamp := timestamp, success := true }

/-- Embedding of `ChaosRunner.executeNavigateForward`: same `.catch(() => {})` pattern. -/
def executeNavigateForward (env : TargetEnv) (timestamp : Nat) : ChaosAction :=
  match env.goForwardOutcome with
  | .ok _ => { type := .navigateForward, timestamp := timestamp, success := true }
  | .error _ => { type := .navigateForward, timestamp := timestamp, success := true }

/-- Embedding of `ChaosRunner.executeRefresh`: `await this.page.reload(...)` has no
`.catch`, so a rejection propagates out of `executeRefresh` (to the
`try/catch` in `executeAction`). -/
def executeRefresh (env : TargetEnv) (timestamp : Nat) :
    Except String ChaosAction :=
  match env.reloadOutcome with
  | .ok _ => .ok { type := .refresh, timestamp := timestamp, success := true }
  | .error e => .error e

/-- Embedding of `ChaosRunner.executeScroll`: draws a direction and an amount, then calls
the mouse/evaluate primitive, which has no local `try` — a rejection
propagates after both draws have advanced the RNG. -/
def executeScroll (env : TargetEnv) (timestamp state : Nat) :
    Except String ChaosAction × Nat :=
  let pDir := SeededRandom.pick state ["up", "down", "top", "bottom"]
  let direction := pDir.1.getD "up"
  let pAmt := SeededRandom.nextInt pDir.2 100 500
  match env.scrollOutcome with
  | .ok _ =>
    (.ok { type := .scroll, value := some direction, timestamp := timestamp,
           success := true }, pAmt.2)
  | .error e => (.error e, pAmt.2)

/-- Embedding of `ChaosRunner.executeKeyboardShortcut` (local `try/catch`). -/
def executeKeyboardShortcut (env : TargetEnv) (timestamp state : Nat) :
    ChaosAction × Nat :=
  let p := SeededRandom.pick state
    [("Escape", "Escape"), ("Control+c", "Copy"), ("Control+a", "Select All"),
     ("Tab", "Tab"), ("Shift+Tab", "Shift+Tab")]
  let shortcut := p.1.getD ("Escape", "Escape")
  match env.keyboardOutcome with
  | .ok _ =>
    ({ type := .keyboardShortcut, value := some shortcut.2,
       timestamp := timestamp, success := true }, p.2)
  | .error e =>
    ({ type := .keyboardShortcut, value := some shortcut.2,
       timestamp := timestamp, success := false, error := some e }, p.2)

/-- Embedding of `ChaosRunner.executeResizeViewport` (no local `try`; a rejection
propagates after the draw). -/
def executeResizeViewport (env : TargetEnv) (timestamp state : Nat) :
    Except String ChaosAction × Nat :=
  let p := SeededRandom.pick state
    [(1920, 1080, "desktop-lg"), (1280, 720, "desktop-sm"),
     (768, 1024, "tablet"), (375, 667, "mobile")]
  let viewport := p.1.getD (1920, 1080, "desktop-lg")
  match env.viewportOutcome with
  | .ok _ =>
    (.ok { type := .resizeViewport, value := some viewport.2.2,
           timestamp := timestamp, success := true }, p.2)
  | .error e => (.error e, p.2)

/-- Embedding of `ChaosRunner.executeAction`: dispatch on the action type.  The outer
`try/catch` turns any propagated rejection into a `success: false` record
with the error message (and no `target`/`value` fields); the `default` case
produces the "Unknown action type" record without touching the Target System
or the RNG. -/
def executeAction (env : TargetEnv) (cfg : ChaosConfig) (tp : ChaosActionType)
    (timestamp state : Nat) : ChaosAction × Nat :=
  match tp with
  | .click => executeClick env cfg timestamp state
  | .typePrompt => executeTypePrompt env cfg timestamp state
  | .navigateBack => (executeNavigateBack env timestamp, state)
  | .navigateForward => (executeNavigateForward env timestamp, state)
  | .refresh =>
    (match executeRefresh env timestamp with
     | .ok a => a
     | .error e =>
       { type := .refresh, timestamp := timestamp, success := false,
         error := some e }, state)
  | .scroll =>
    let p := executeScroll env timestamp state
    (match p.1 with
     | .ok a => a
     | .error e =>
       { type := .scroll, timestamp := timestamp, success := false,
         error := some e }, p.2)
  | .keyboardShortcut => executeKeyboardShortcut env timestamp state
  | .resizeViewport =>
    let p := executeResizeViewport env timestamp state
    (match p.1 with
     | .ok a => a
     | .error e =>
       { type := .resizeViewport, timestamp := timestamp, success := false,
         error := some e }, p.2)
  | .toggleSidebar =>
    ({ type := .toggleSidebar, timestamp := timestamp, success := false,
       error := some ("Unknown action type: " ++ ChaosActionType.str .toggleSidebar) },
     state)
  | .switchModel =>
    ({ type := .switchModel, timestamp := timestamp, success := false,
       error := some ("Unknown action type: " ++ ChaosActionType.str .switchModel) },
     state)

/-- Embedding of `ChaosRunner.checkInvariants`: pushes, in order, `no-blank-screen`,
`no-crash-dialog` and `console-error-threshold` (the latter whenever the
accumulated console-error count exceeds the hardcoded 10).  The stuck-spinner
probe computes a value but never appends a violation. -/
def checkInvariants (isBlank hasErrorDialog : Bool) (consoleErrorCount : Nat)
    (action : ChaosAction) : List InvariantViolation :=
  (if isBlank then
    [{ invariant := "no-blank-screen",
       description := "Page rendered blank after action",
       afterAction := action }]
   else []) ++
  (if hasErrorDialog then
    [{ invariant := "no-crash-dialog",
       description := "Error dialog or crash boundary appeared",
       afterAction := action }]
   else []) ++
  (if consoleErrorCount > 10 then
    [{ invariant := "console-error-threshold",
       description := "Excessive console errors: " ++ toString consoleErrorCount,
       afterAction := action }]
   else [])

/-- The `Issue` shape from `types.ts`, restricted to the fields the chaos
runner sets (`foundAt`, a `Date`, is modelled as the clock reading that
produced it). -/
structure Issue where
  id : String
  severity : String
  category : String
  title : String
  description : String
  pageUrl : String
  reproSteps : List String
  selectors : List String
  foundAt : Nat
  evidenceScreenshot : Option String := none
deriving DecidableEq

/-- One line of a violation issue's `reproSteps`:
`` `${i + 1}. ${a.type}${a.target ? ` on ${a.target}` : ''}${a.value ? ` with "${a.value}"` : ''}` ``. -/
def reproStep (i : Nat) (a : ChaosAction) : String :=
  toString (i + 1) ++ ". " ++ a.type.str ++
    (match a.target with | some t => " on " ++ t | none => "") ++
    (match a.value with | some v => " with \"" ++ v ++ "\"" | none => "")

/-- One line of a console issue's `reproSteps` (the `value` part is omitted
in the source). -/
def reproStepConsole (i : Nat) (a : ChaosAction) : String :=
  toString (i + 1) ++ ". " ++ a.type.str ++
    (match a.target with | some t => " on " ++ t | none => "")

/-- The Issue built from one `InvariantViolation` in `run()`.  `issueNow`
models the `Date.now()` read into the id (and the `new Date()` of `foundAt`);
`issueRand` models `Math.random().toString(36).slice(2, 8)`. -/
def violationIssue (issueNow : Nat) (issueRand : String) (pageUrl : String)
    (actions : List ChaosAction) (v : InvariantViolation) : Issue :=
  { id := "chaos-" ++ toString issueNow ++ "-" ++ issueRand
    severity := "high"
    category := "llm-chaos"
    title := "Invariant violation: " ++ v.invariant
    description := v.description
    pageUrl := pageUrl
    reproSteps := actions.enum.map fun p => reproStep p.1 p.2
    selectors := []
    foundAt := issueNow
    evidenceScreenshot := v.screenshot }

/-- The Issue built from one captured console error in `run()`. -/
def consoleIssue (issueNow : Nat) (issueRand : String) (pageUrl : String)
    (actions : List ChaosAction) (error : String) : Issue :=
  { id := "chaos-console-" ++ toString issueNow ++ "-" ++ issueRand
    severity := "medium"
    category := "console-error"
    title := "Console error during chaos run"
    description := error
    pageUrl := pageUrl
    reproSteps := actions.enum.map fun p => reproStepConsole p.1 p.2
    selectors := []
    foundAt := issueNow }

/-- The two issue-building loops at the end of `run()`: one high-severity
issue per invariant violation, then one medium-severity issue per captured
console error.  `issueNow`/`issueRand` supply the per-issue `Date.now()` /
`Math.random()` reads, indexed by issue ordinal. -/
def deriveIssues (issueNow : Nat → Nat) (issueRand : Nat → String)
    (pageUrl : String) (actions : List ChaosAction)
    (violations : List InvariantViolation) (consoleErrors : List String) :
    List Issue :=
  (violations.enum.map fun p =>
    violationIssue (issueNow p.1) (issueRand p.1) pageUrl actions p.2) ++
  (consoleErrors.enum.map fun p =>
    consoleIssue (issueNow (violations.length + p.1))
      (issueRand (violations.length + p.1)) pageUrl actions p.2)

/-- The `ChaosResult` record. -/
structure ChaosResult where
  seed : Nat
  totalSteps : Nat
  totalTimeMs : Nat
  actions : List ChaosAction
  issues : List Issue
  invariantViolations : List InvariantViolation
  consoleErrors : List String
  uncaughtExceptions : List String

/-- Loop-local state of `run()`: the step counter, the RNG state and the two
append-only logs. -/
structure RunState where
  stepNumber : Nat
  rngState : Nat
  actions : List ChaosAction
  violations : List InvariantViolation

/-- The `while` loop of `ChaosRunner.run`, with fuel.  Each iteration first
checks `stepNumber < maxSteps && Date.now() - startTime < maxTimeMs`, then
increments the counter, draws an action type (`continue` when `pick` yields
`undefined`, which only happens for an empty `allowedActions`), executes it,
appends the record and the invariant-check results, and loops.  Since every
iteration increments `stepNumber`, fuel `maxSteps` makes the fueled loop
equal to the unbounded `while` loop.  The progress callback and the 100 ms
settle delay touch no recorded state and are omitted. -/
def runLoop (cfg : ChaosConfig) (env : TargetEnv) : Nat → RunState → RunState
  | 0, st => st
  | fuel + 1, st =>
    if st.stepNumber < cfg.maxSteps ∧ env.elapsed st.stepNumber < cfg.maxTimeMs then
      let step := st.stepNumber + 1
      let p := SeededRandom.pick st.rngState cfg.allowedActions
      match p.1 with
      | none => runLoop cfg env fuel { st with stepNumber := step, rngState := p.2 }
      | some actionType =>
        let a := executeAction env cfg actionType (env.timeAt step) p.2
        let violations := checkInvariants (env.isBlank step)
          (env.hasErrorDialog step) (env.consoleCount step) a.1
        runLoop cfg env fuel
          { stepNumber := step, rngState := a.2,
            actions := st.actions ++ [a.1],
            violations := st.violations ++ violations }
    else st

/-- Embedding of `ChaosRunner.run`: drives the loop from step 0 with the seeded RNG, then
aggregates the logs into a `ChaosResult`. -/
def runChaos (cfg : ChaosConfig) (env : TargetEnv) : ChaosResult :=
  let final := runLoop cfg env cfg.maxSteps
    { stepNumber := 0, rngState := cfg.seed, actions := [], violations := [] }
  { seed := cfg.seed
    totalSteps := final.stepNumber
    totalTimeMs := env.finalElapsed
    actions := final.actions
    issues := deriveIssues env.issueNow env.issueRand env.pageUrl final.actions
      final.violations env.finalConsoleErrors
    invariantViolations := final.violations
    consoleErrors := env.finalConsoleErrors
    uncaughtExceptions := env.finalUncaught }

/-- While the time budget is never exhausted and `allowedActions` is
non-empty, the loop runs all remaining steps, appending one action record per
step. -/
theorem runLoop_full (cfg : ChaosConfig) (env : TargetEnv)
    (hne : cfg.allowedActions ≠ [])
    (htime : ∀ k, env.elapsed k < cfg.maxTimeMs) :
    ∀ (fuel : Nat) (st : RunState), st.stepNumber + fuel = cfg.maxSteps →
      (runLoop cfg env fuel st).stepNumber = cfg.maxSteps ∧
      (runLoop cfg env fuel st).actions.length = st.actions.length + fuel := by
  intro fuel
  induction fuel with
  | zero =>
    intro st h
    exact ⟨by simpa [runLoop] using h, by simp [runLoop]⟩
  | succ fuel ih =>
    intro st h
    have hlt : st.stepNumber < cfg.maxSteps := by omega
    obtain ⟨x, hx⟩ :=
      SeededRandom.pick_eq_some_of_ne_nil st.rngState cfg.allowedActions hne
    rw [runLoop, if_pos ⟨hlt, htime st.stepNumber⟩]
    simp only [hx]
    constructor
    · exact (ih _ (show st.stepNumber + 1 + fuel = cfg.maxSteps by omega)).1
    · rw [(ih _ (show st.stepNumber + 1 + fuel = cfg.maxSteps by omega)).2]
      simp only [List.length_append, List.length_singleton]
      omega

/-- C2: with step budget `n`, a time budget the clock never reaches, and a
non-empty `allowedActions` list, `run()` executes exactly `n` actions:
`totalSteps = n` and the action log holds `n` records.  The termination
condition is re-checked before every action, so no action executes after it
is met — the log cannot exceed `n`. -/
theorem run_executes_exactly_maxSteps (cfg : ChaosConfig) (env : TargetEnv)
    (n m : Nat) (a : ChaosActionType) (rest : List ChaosActionType) :
    (runChaos { cfg with
        maxSteps := n
        maxTimeMs := m + 1
        allowedActions := a :: rest }
      { env with elapsed := fun _ => 0 }).totalSteps = n ∧
    (runChaos { cfg with
        maxSteps := n
        maxTimeMs := m + 1
        allowedActions := a :: rest }
      { env with elapsed := fun _ => 0 }).actions.length = n := by
  have h := runLoop_full
    { cfg with
        maxSteps := n
        maxTimeMs := m + 1
        allowedActions := a :: rest }
    { env with elapsed := fun _ => 0 }
    (by simp)
    (fun k => show (0 : Nat) < m + 1 by omega)
    n { stepNumber := 0, rngState := cfg.seed, actions := [], violations := [] }
    (show 0 + n = n by omega)
  exact ⟨h.1, by simpa using h.2⟩

/-- C10: `toggle-sidebar` and `switch-model` (both members of the declared
taxonomy) fall to `executeAction`'s `default` case: for every Target System
environment the result is the same — no interaction occurs, the RNG state is
returned unchanged, and the record has `success: false` with error
`Unknown action type: <kind>` — and a session whose `allowedActions` is
`[toggle-sidebar]` still runs its whole step budget. -/
theorem unknown_action_kinds (env : TargetEnv) (cfg : ChaosConfig)
    (ts state n m : Nat) :
    executeAction env cfg .toggleSidebar ts state =
      ({ type := .toggleSidebar, timestamp := ts, success := false,
         error := some "Unknown action type: toggle-sidebar" }, state) ∧
    executeAction env cfg .switchModel ts state =
      ({ type := .switchModel, timestamp := ts, success := false,
         error := some "Unknown action type: switch-model" }, state) ∧
    (runChaos { cfg with
        maxSteps := n
        maxTimeMs := m + 1
        allowedActions := [.toggleSidebar] }
      { env with elapsed := fun _ => 0 }).totalSteps = n := by
  refine ⟨rfl, rfl, ?_⟩
  exact (runLoop_full
    { cfg with
        maxSteps := n
        maxTimeMs := m + 1
        allowedActions := [.toggleSidebar] }
    { env with elapsed := fun _ => 0 }
    (by simp)
    (fun k => show (0 : Nat) < m + 1 by omega)
    n { stepNumber := 0, rngState := cfg.seed, actions := [], violations := [] }
    (show 0 + n = n by omega)).1

/-- A malformed configuration: empty `allowedActions`, zero budgets. -/
def malformedConfig : PartialChaosConfig :=
  { allowedActions := some ([] : List ChaosActionType)
    maxSteps := some 0
    maxTimeMs := some 0 }

/-- C4 counterexample: a malformed configuration — empty `allowedActions`,
zero `maxSteps` and zero `maxTimeMs` — is accepted by the constructor, which
contains no validation: it returns a config (a runnable session) instead of
raising. -/
theorem constructor_accepts_malformed :
    (chaosConstructor 0 malformedConfig).isOk = true ∧
    chaosConstructor 0 malformedConfig = .ok (mkChaosConfig 0 malformedConfig) :=
  ⟨rfl, rfl⟩

/-- C4 (amended): the constructor performs no validation at all: every
configuration — malformed ones (empty `allowedActionKinds`, non-positive
budgets) included — is accepted with defaults filled in, and construction
never fails. -/
theorem constructor_never_raises (nowSeed : Nat) (config : PartialChaosConfig) :
    chaosConstructor nowSeed config = .ok (mkChaosConfig nowSeed config) := rfl

/-- C8 counterexample: a failing `reload` during `refresh` is not swallowed
as success: it escapes `executeRefresh` and the outer `try/catch` of
`executeAction` records `success: false` with the error message,
contradicting the claim that all three navigation kinds record
`success: true` on failure. -/
theorem refresh_failure_recorded_as_failure :
    (executeAction { reloadOutcome := .error "Timeout 10000ms exceeded" }
        (mkChaosConfig 0 {}) .refresh 0 0).1 =
      { type := .refresh, timestamp := 0, success := false,
        error := some "Timeout 10000ms exceeded" } := rfl

/-- C8 (amended): `navigate-back` and `navigate-forward` swallow any
navigation failure (`.catch(() => {})`) and always record `success: true`
with no further effect; `refresh` has no local catch — its rejection is
caught one level up in `executeAction` and recorded as `success: false` with
the error message.  In every case a record is returned, so no exception
reaches the session loop. -/
theorem navigation_failure_handling (env : TargetEnv) (cfg : ChaosConfig)
    (ts state : Nat) :
    executeAction env cfg .navigateBack ts state =
      ({ type := .navigateBack, timestamp := ts, success := true }, state) ∧
    executeAction env cfg .navigateForward ts state =
      ({ type := .navigateForward, timestamp := ts, success := true }, state) ∧
    executeAction env cfg .refresh ts state =
      ((match env.reloadOutcome with
        | .ok _ => { type := .refresh, timestamp := ts, success := true }
        | .error e =>
          { type := .refresh, timestamp := ts, success := false,
            error := some e }), state) := by
  refine ⟨?_, ?_, ?_⟩
  · simp only [executeAction, executeNavigateBack]
    cases env.goBackOutcome <;> rfl
  · simp only [executeAction, executeNavigateForward]
    cases env.goForwardOutcome <;> rfl
  · simp only [executeAction, executeRefresh]
    cases env.reloadOutcome <;> rfl

theorem getD_false_eq_true_iff (o : Option Bool) :
    o.getD false = true ↔ o = some true := by
  cases o with
  | none => simp
  | some b => cases b <;> simp

/-- An element survives `isForbiddenElement` iff no deny pattern's match
check succeeds with `true` on it. -/
theorem isForbiddenElement_eq_false_iff (matchesSel : Nat → String → Option Bool)
    (forbiddenSelectors : List String) (el : Nat) :
    isForbiddenElement matchesSel forbiddenSelectors el = false ↔
      ∀ sel ∈ forbiddenSelectors, matchesSel el sel ≠ some true := by
  simp only [isForbiddenElement, List.any_eq_false, getD_false_eq_true_iff]

theorem mem_safeClickElements_iff (env : TargetEnv)
    (forbiddenSelectors : List String) (el : Nat) :
    el ∈ safeClickElements env forbiddenSelectors ↔
      el ∈ env.candidates ∧
        ∀ sel ∈ forbiddenSelectors, env.matchesSel el sel ≠ some true := by
  simp only [safeClickElements, List.mem_filter, Bool.not_eq_true',
    isForbiddenElement_eq_false_iff]

/-- C3: the click-action safety filter keeps exactly the candidates matching
no deny pattern, where a pattern whose match check fails (`none`, the TS
`catch {}`) counts as not matching — fail-open; consequently any element
`pick`ed from the filtered list (the only elements `executeClick` clicks)
matches no deny pattern whose match check succeeds. -/
theorem safety_filter_correct (env : TargetEnv)
    (forbiddenSelectors : List String) (state : Nat) :
    (∀ el, el ∈ safeClickElements env forbiddenSelectors ↔
        el ∈ env.candidates ∧
          ∀ sel ∈ forbiddenSelectors, env.matchesSel el sel ≠ some true) ∧
    (∀ el, (SeededRandom.pick state (safeClickElements env forbiddenSelectors)).1
          = some el →
        ∀ sel ∈ forbiddenSelectors, env.matchesSel el sel ≠ some true) := by
  refine ⟨mem_safeClickElements_iff env forbiddenSelectors, ?_⟩
  intro el hel sel hsel
  have hmem : el ∈ safeClickElements env forbiddenSelectors :=
    SeededRandom.pick_mem hel
  exact ((mem_safeClickElements_iff env forbiddenSelectors el).1 hmem).2 sel hsel

/-- A two-candidate environment in which element 0 matches the deny pattern
and element 1 does not. -/
def filterDemoEnv : TargetEnv :=
  { candidates := [0, 1]
    matchesSel := fun el sel =>
      if el = 0 ∧ sel = "[data-testid*=\"delete\"]" then some true
      else some false }

/-- Witness for `safety_filter_correct`: in `filterDemoEnv` the filtered list
is `[1]`, `pick` selects element 1, and that element matches no deny
pattern. -/
theorem safety_filter_correct_witness :
    filterDemoEnv.matchesSel 1 "[data-testid*=\"delete\"]" ≠ some true :=
  (safety_filter_correct filterDemoEnv ["[data-testid*=\"delete\"]"] 0).2 1
    (by decide) "[data-testid*=\"delete\"]" (by decide)

/-- Predicate selecting `console-error-threshold` violations. -/
def consoleViolationP (v : InvariantViolation) : Bool :=
  v.invariant == "console-error-threshold"

/-- One invariant check contributes one `console-error-threshold` violation
exactly when the accumulated console-error count exceeds 10. -/
theorem countP_console_checkInvariants (b d : Bool) (c : Nat) (a : ChaosAction) :
    (checkInvariants b d c a).countP consoleViolationP =
      if 10 < c then 1 else 0 := by
  by_cases hc : 10 < c <;>
    cases b <;> cases d <;>
      simp [checkInvariants, hc, consoleViolationP, List.countP_append,
        List.countP_cons]

theorem runLoop_console_count (cfg : ChaosConfig) (env : TargetEnv)
    (hne : cfg.allowedActions ≠ [])
    (htime : ∀ k, env.elapsed k < cfg.maxTimeMs) :
    ∀ (fuel : Nat) (st : RunState), st.stepNumber + fuel = cfg.maxSteps →
      (runLoop cfg env fuel st).violations.countP consoleViolationP =
        st.violations.countP consoleViolationP +
          (List.range fuel).countP
            (fun k => decide (10 < env.consoleCount (st.stepNumber + 1 + k))) := by
  intro fuel
  induction fuel with
  | zero =>
    intro st h
    simp [runLoop]
  | succ fuel ih =>
    intro st h
    have hlt : st.stepNumber < cfg.maxSteps := by omega
    obtain ⟨x, hx⟩ :=
      SeededRandom.pick_eq_some_of_ne_nil st.rngState cfg.allowedActions hne
    rw [runLoop, if_pos ⟨hlt, htime st.stepNumber⟩]
    simp only [hx]
    rw [ih _ (show st.stepNumber + 1 + fuel = cfg.maxSteps by omega)]
    rw [List.countP_append, countP_console_checkInvariants,
      List.range_succ_eq_map, List.countP_cons, List.countP_map]
    have hshift : (List.range fuel).countP
        ((fun k => decide (10 < env.consoleCount (st.stepNumber + 1 + k))) ∘ Nat.succ) =
      (List.range fuel).countP
        (fun k => decide (10 < env.consoleCount (st.stepNumber + 1 + 1 + k))) := by
      apply List.countP_congr
      intro x _
      simp only [Function.comp_apply, decide_eq_true_eq]
      rw [show st.stepNumber + 1 + Nat.succ x = st.stepNumber + 1 + 1 + x by omega]
    rw [hshift]
    simp only [decide_eq_true_eq, Nat.add_zero]
    omega

/-- C5 (amended): the console-error check has no deduplication: one
`console-error-threshold` violation is appended at every invariant check at
which the accumulated console-error count exceeds 10.  Over a full run the
number of such violations equals the number of steps whose check saw a count
above 10 — so with 11 errors observed and `k` further checks, `k + 1`
violations accumulate (one per check from the first check after the 11th
error), not exactly one. -/
theorem console_threshold_fires_per_check (cfg : ChaosConfig) (env : TargetEnv)
    (n m : Nat) (a : ChaosActionType) (rest : List ChaosActionType) :
    (runChaos { cfg with
        maxSteps := n
        maxTimeMs := m + 1
        allowedActions := a :: rest }
      { env with elapsed := fun _ => 0 }).invariantViolations.countP
        consoleViolationP =
      (List.range n).countP (fun k => decide (10 < env.consoleCount (k + 1))) := by
  have h := runLoop_console_count
    { cfg with
      maxSteps := n
      maxTimeMs := m + 1
      allowedActions := a :: rest }
    { env with elapsed := fun _ => 0 }
    (by simp)
    (fun k => show (0 : Nat) < m + 1 by omega)
    n { stepNumber := 0, rngState := cfg.seed, actions := [], violations := [] }
    (show 0 + n = n by omega)
  rw [show (runChaos { cfg with
        maxSteps := n
        maxTimeMs := m + 1
        allowedActions := a :: rest }
      { env with elapsed := fun _ => 0 }).invariantViolations =
    (runLoop { cfg with
        maxSteps := n
        maxTimeMs := m + 1
        allowedActions := a :: rest }
      { env with elapsed := fun _ => 0 } n
      { stepNumber := 0, rngState := cfg.seed, actions := [], violations := [] }).violations
    from rfl]
  rw [h]
  simp only [List.countP_nil, Nat.zero_add]
  apply List.countP_congr
  intro x _
  simp only [decide_eq_true_eq]
  rw [show 0 + 1 + x = x + 1 by omega]

/-- An environment with eleven console errors captured before the first
invariant check. -/
def consoleDemoEnv : TargetEnv :=
  { consoleCount := fun _ => 11
    finalConsoleErrors := ["e1", "e2", "e3", "e4", "e5", "e6", "e7", "e8",
      "e9", "e10", "e11"] }

/-- A two-step session drawing only `navigate-back`. -/
def consoleDemoCfg : ChaosConfig :=
  { mkChaosConfig 0 {} with
    maxSteps := 2
    maxTimeMs := 1000
    allowedActions := [.navigateBack] }

/-- C5 counterexample: exactly 11 console errors are captured over the run,
all observed by the first invariant check, and the run performs a second step
afterwards — yet the violation log contains TWO `console-error-threshold`
violations (one per check), not exactly one. -/
theorem console_threshold_not_exactly_one :
    (runChaos consoleDemoCfg consoleDemoEnv).consoleErrors.length = 11 ∧
    (runChaos consoleDemoCfg consoleDemoEnv).totalSteps = 2 ∧
    (runChaos consoleDemoCfg consoleDemoEnv).invariantViolations.countP
        consoleViolationP = 2 := by
  refine ⟨rfl, ?_, ?_⟩ <;> decide

/-- A one-record action log and a one-record violation log used to exhibit
the clock dependence of issue derivation. -/
def demoAction : ChaosAction :=
  { type := .navigateBack, timestamp := 0, success := true }

/-- The violation accompanying `demoAction`. -/
def demoViolation : InvariantViolation :=
  { invariant := "no-blank-screen"
    description := "Page rendered blank after action"
    afterAction := demoAction }

/-- C9 counterexample: the derived Issues embed `Date.now()` (and
`Math.random()`) into the `id` and `foundAt` fields, so two conversions of
identical logs performed at different instants produce different Issues —
the log-to-Issue mapping is not deterministic as a whole. -/
theorem deriveIssues_not_deterministic :
    deriveIssues (fun _ => 1) (fun _ => "aaaaaa") "https://app"
        [demoAction] [demoViolation] [] ≠
      deriveIssues (fun _ => 2) (fun _ => "aaaaaa") "https://app"
        [demoAction] [demoViolation] [] := by
  decide

/-- The fields of an Issue that do not embed a clock or random read. -/
def issueEssence (i : Issue) :
    String × String × String × String × String × List String × List String ×
      Option String :=
  (i.severity, i.category, i.title, i.description, i.pageUrl, i.reproSteps,
    i.selectors, i.evidenceScreenshot)

/-- C9 (amended): modulo the `id` and `foundAt` fields (which embed
`Date.now()` / `Math.random()` reads), the conversion of the action,
violation and console-error logs into Issues is deterministic and pure:
every other field is a function of the logs alone, and the output consists of
one high-severity `llm-chaos` Issue per invariant violation followed by one
medium-severity `console-error` Issue per captured console error. -/
theorem deriveIssues_deterministic_modulo_ids
    (now1 now2 : Nat → Nat) (rand1 rand2 : Nat → String) (url : String)
    (actions : List ChaosAction) (violations : List InvariantViolation)
    (consoleErrors : List String) :
    (deriveIssues now1 rand1 url actions violations consoleErrors).map
        issueEssence =
      (deriveIssues now2 rand2 url actions violations consoleErrors).map
        issueEssence ∧
    (deriveIssues now1 rand1 url actions violations consoleErrors).length =
      violations.length + consoleErrors.length ∧
    (deriveIssues now1 rand1 url actions violations consoleErrors).countP
        (fun i => i.severity == "high") = violations.length ∧
    (deriveIssues now1 rand1 url actions violations consoleErrors).countP
        (fun i => i.severity == "medium") = consoleErrors.length := by
  refine ⟨?_, ?_, ?_, ?_⟩
  · simp only [deriveIssues, List.map_append, List.map_map]
    have hv12 : List.map
        (issueEssence ∘ fun p =>
          violationIssue (now1 p.1) (rand1 p.1) url actions p.2)
        violations.enum =
      List.map
        (issueEssence ∘ fun p =>
          violationIssue (now2 p.1) (rand2 p.1) url actions p.2)
        violations.enum :=
      List.map_congr_left fun p _ => rfl
    have hc12 : List.map
        (issueEssence ∘ fun p =>
          consoleIssue (now1 (violations.length + p.1))
            (rand1 (violations.length + p.1)) url actions p.2)
        consoleErrors.enum =
      List.map
        (issueEssence ∘ fun p =>
          consoleIssue (now2 (violations.length + p.1))
            (rand2 (violations.length + p.1)) url actions p.2)
        consoleErrors.enum :=
      List.map_congr_left fun p _ => rfl
    rw [hv12, hc12]
  · simp [deriveIssues, List.length_append, List.length_map, List.enum_length]
  · simp only [deriveIssues, List.countP_append, List.countP_map]
    have hv : violations.enum.countP
        ((fun i => i.severity == "high") ∘ fun p =>
          violationIssue (now1 p.1) (rand1 p.1) url actions p.2) =
        violations.enum.length :=
      List.countP_eq_length.mpr fun p _ => by
        simp [Function.comp, violationIssue]
    have hc : consoleErrors.enum.countP
        ((fun i => i.severity == "high") ∘ fun p =>
          consoleIssue (now1 (violations.length + p.1))
            (rand1 (violations.length + p.1)) url actions p.2) = 0 :=
      List.countP_eq_zero.mpr fun p _ => by
        simp [Function.comp, consoleIssue]
    rw [hv, hc, List.enum_length]
    omega
  · simp only [deriveIssues, List.countP_append, List.countP_map]
    have hv : violations.enum.countP
        ((fun i => i.severity == "medium") ∘ fun p =>
          violationIssue (now1 p.1) (rand1 p.1) url actions p.2) = 0 :=
      List.countP_eq_zero.mpr fun p _ => by
        simp [Function.comp, violationIssue]
    have hc : consoleErrors.enum.countP
        ((fun i => i.severity == "medium") ∘ fun p =>
          consoleIssue (now1 (violations.length + p.1))
            (rand1 (violations.length + p.1)) url actions p.2) =
        consoleErrors.enum.length :=
      List.countP_eq_length.mpr fun p _ => by
        simp [Function.comp, consoleIssue]
    rw [hv, hc, List.enum_length]
    omega

end ChaosRunner
